import Mathlib

/-!
Verification of the LLM Advisor worker (`src/chat_llm.py`).

The development shallowly embeds the worker: Python dictionary / list /
string values become the inductive `PyValue`; Python exceptions become the
explicit value `PyExn`, tagged with the handler class that catches them in
`process_llm_response` (`ValueError`-like versus every other `Exception`);
fallible Python code becomes `Except PyExn`.  The external model backend is
an oracle `Nat → BackendResult` giving, for each call, either a raised
exception or a returned completion text.  The standard-library parsers
`json.loads` and `ast.literal_eval` are external black boxes and are taken
as function parameters everywhere they are used.
-/

/-- Python values as produced by `json.loads` / `ast.literal_eval` and as
carried in message payloads.  Dictionary keys are restricted to strings
(all payloads in the worker use string keys) and numeric literals are
modelled as integers. -/
inductive PyValue where
  | str : String → PyValue
  | int : Int → PyValue
  | bool : Bool → PyValue
  | none : PyValue
  | list : List PyValue → PyValue
  | dict : List (String × PyValue) → PyValue

/-- Which `except` clause of `process_llm_response` catches the exception:
`valueError` is caught by `except (json.JSONDecodeError, ValueError)`,
`otherError` (TypeError, KeyError, AttributeError, transport errors, ...)
by the generic `except Exception`. -/
inductive ExnClass where
  | valueError : ExnClass
  | otherError : ExnClass
deriving DecidableEq, Repr

/-- A Python exception: its handler class together with its `str(e)` text. -/
structure PyExn where
  cls : ExnClass
  msg : String
deriving DecidableEq, Repr

/-- One conversation turn, `{"role": ..., "content": ...}`. -/
structure Turn where
  role : String
  content : String
deriving DecidableEq, Repr

/-- The kind of an incoming or outgoing message (`MessageType`). -/
inductive MsgType where
  | INIT | COMMAND | EVOLUTION_UPDATE | THRESHOLD_START | SUGGESTION | ERROR
deriving DecidableEq, Repr

/-- An incoming envelope after deserialization: its type and its payload
dictionary. -/
structure Msg where
  msgType : MsgType
  payload : List (String × PyValue)

/-- An outgoing envelope put on `queue_snd` by `process_llm_response`:
either a SUGGESTION carrying the parsed payload or an ERROR carrying the
error text and the retry count. -/
inductive OutMsg where
  | suggestion : PyValue → OutMsg
  | error : String → Nat → OutMsg

/-- One behaviour of the model backend for one call of
`llm_client.chat.completions.create(...)` (through `.strip()`): either the
invocation raises an exception or it returns a completion text. -/
inductive BackendResult where
  | raise : PyExn → BackendResult
  | respond : String → BackendResult

/-- The Python type name, for `TypeError` messages. -/
def pyTypeName : PyValue → String
  | .str _ => "str"
  | .int _ => "int"
  | .bool _ => "bool"
  | .none => "NoneType"
  | .list _ => "list"
  | .dict _ => "dict"

/-- `a` is a prefix of `b`, on character lists. -/
def prefixCharsB : List Char → List Char → Bool
  | [], _ => true
  | _ :: _, [] => false
  | a :: as, b :: bs => a == b && prefixCharsB as bs

/-- `n` occurs contiguously inside `h`, on character lists. -/
def substrCharsB (n : List Char) : List Char → Bool
  | [] => n.isEmpty
  | c :: cs => prefixCharsB n (c :: cs) || substrCharsB n cs

/-- Python `n in h` for strings: substring test. -/
def substrB (n h : String) : Bool :=
  substrCharsB n.data h.data

/-- Python `k in v` for a string `k`: key membership for dicts, element
membership for lists (string equality; `==` of a str with a non-str value
is False), substring for strings, `TypeError` otherwise. -/
def pyContains (v : PyValue) (k : String) : Except PyExn Bool :=
  match v with
  | .dict kvs => .ok (kvs.any fun kv => kv.1 == k)
  | .list xs => .ok (xs.any fun x => match x with | .str s => s == k | _ => false)
  | .str s => .ok (substrB k s)
  | _ => .error ⟨.otherError, "argument of type \x27" ++ pyTypeName v ++ "\x27 is not iterable"⟩

/-- Python `v[k]` for a string key `k`: dict lookup (KeyError when absent),
`TypeError` on every other value. -/
def pySubscript (v : PyValue) (k : String) : Except PyExn PyValue :=
  match v with
  | .dict kvs =>
    match kvs.find? (fun kv => kv.1 == k) with
    | some kv => .ok kv.2
    | Option.none => .error ⟨.otherError, "KeyError: \x27" ++ k ++ "\x27"⟩
  | .list _ => .error ⟨.otherError, "list indices must be integers or slices, not str"⟩
  | .str _ => .error ⟨.otherError, "string indices must be integers"⟩
  | _ => .error ⟨.otherError, "\x27" ++ pyTypeName v ++ "\x27 object is not subscriptable"⟩

/-- Python `for x in v`: the sequence of iterated values — list elements,
dict keys, the characters of a string — or a `TypeError`. -/
def pyIter (v : PyValue) : Except PyExn (List PyValue) :=
  match v with
  | .list xs => .ok xs
  | .dict kvs => .ok (kvs.map fun kv => .str kv.1)
  | .str s => .ok (s.data.map fun c => .str (String.mk [c]))
  | _ => .error ⟨.otherError, "\x27" ++ pyTypeName v ++ "\x27 object is not iterable"⟩

/-- Python `dict.get(k, default)`. -/
def pyGet (kvs : List (String × PyValue)) (k : String) (dflt : PyValue) : PyValue :=
  match kvs.find? (fun kv => kv.1 == k) with
  | some kv => kv.2
  | Option.none => dflt

/-- Python `str.capitalize()`: first character upper case, the rest lower
case. -/
def pyCapitalize (s : String) : String :=
  match s.data with
  | [] => ""
  | c :: cs => String.mk (c.toUpper :: cs.map Char.toLower)

mutual

/-- Python `repr` of a value (`str` of a value nested inside a container). -/
def pyReprV : PyValue → String
  | .str s => "\x27" ++ s ++ "\x27"
  | .int n => toString n
  | .bool b => if b then "True" else "False"
  | .none => "None"
  | .list xs => "[" ++ pyReprL xs ++ "]"
  | .dict kvs => "\x7b" ++ pyReprD kvs ++ "\x7d"

/-- `repr` of list elements, comma separated. -/
def pyReprL : List PyValue → String
  | [] => ""
  | [x] => pyReprV x
  | x :: y :: xs => pyReprV x ++ ", " ++ pyReprL (y :: xs)

/-- `repr` of dict items, comma separated. -/
def pyReprD : List (String × PyValue) → String
  | [] => ""
  | [kv] => "\x27" ++ kv.1 ++ "\x27: " ++ pyReprV kv.2
  | kv :: kv2 :: kvs => "\x27" ++ kv.1 ++ "\x27: " ++ pyReprV kv.2 ++ ", " ++ pyReprD (kv2 :: kvs)

end

/-- Python `str(v)` as used by f-string interpolation: a plain string keeps
its text, any other value renders by `repr`-style printing. -/
def pyStrTop : PyValue → String
  | .str s => s
  | v => pyReprV v

mutual

/-- `json.dumps(v, ensure_ascii=False)`: the worker renders the canonical
schema example with `indent=2`; the claims never pin the whitespace of the
rendered schema, so the compact rendering stands for the indented one. -/
def jsonDumpsV : PyValue → String
  | .str s => "\x22" ++ s ++ "\x22"
  | .int n => toString n
  | .bool b => if b then "true" else "false"
  | .none => "null"
  | .list xs => "[" ++ jsonDumpsL xs ++ "]"
  | .dict kvs => "\x7b" ++ jsonDumpsD kvs ++ "\x7d"

/-- JSON rendering of list elements, comma separated. -/
def jsonDumpsL : List PyValue → String
  | [] => ""
  | [x] => jsonDumpsV x
  | x :: y :: xs => jsonDumpsV x ++ ", " ++ jsonDumpsL (y :: xs)

/-- JSON rendering of dict items, comma separated. -/
def jsonDumpsD : List (String × PyValue) → String
  | [] => ""
  | [kv] => "\x22" ++ kv.1 ++ "\x22: " ++ jsonDumpsV kv.2
  | kv :: kv2 :: kvs => "\x22" ++ kv.1 ++ "\x22: " ++ jsonDumpsV kv.2 ++ ", " ++ jsonDumpsD (kv2 :: kvs)

end

/-- The module-level `resp_format` dictionary (the canonical output-schema
example). -/
def respFormat : PyValue :=
  .dict
    [ ("suggestions", .list
        [ .dict
            [ ("expression", .str "< Improved expression (please follow the given expression format) >")
            , ("reason", .str "< Reason for the suggested improvement >") ] ])
    , ("anomaly_score", .str "< Your assessment score for the current scenario\x27s anomaly level >")
    , ("reason", .str "< Reason for the anomaly score >") ]

/-- `json.dumps(resp_format, indent=2, ensure_ascii=False)`, as embedded in
the system prompt, the round-prompt suffix and the error-feedback prompt. -/
def respFormatText : String :=
  jsonDumpsV respFormat

/-- `PromptTemplates.SYSTEM.format(labels=labels, operators=operators,
format=fmt)`: the system prompt with the scenario symbols, operators and
the schema example interpolated (`str.format` renders the two list values
with `str`). -/
def systemTemplate (labels operators : PyValue) (fmt : String) : String :=
  "\nYou are a Visual Logic Architect and Logic Expression Optimizer. You can explain visual scene descriptions and help improve logical expressions to make them more accurate, efficient, and interpretable to meet the requirements of visual scene features and relationships.\n\nKey Capabilities:\n1. Expression Analysis: Evaluate the logical coherence, redundancy, and semantic consistency of current symbolic expressions.\n2. Optimization Suggestions: Identify potential simplifications or adjustments (e.g., removing redundant terms, optimizing conditions) while maintaining or enhancing the descriptive power.\n3. Task-Specific Optimization: Propose modifications based on specific scenario requirements (e.g., safety, target tracking) and apply symbolic regression optimization rules to improve task performance while minimizing performance loss.\n4. Interpretability Enhancement: Make expressions more understandable through simplified relationships, context-aware labels, or reformatting to reflect intuitive conditional structures.\n\nEssential steps for fulfilling this role:\n1. Initial Analysis: Extract information from logical expressions and corresponding metrics. Evaluate expressions for immediate improvements from context. This includes identifying overly complex nested structures and ambiguities in terminology.\n2. Contextual Optimization: Suggest simplifications or replacements of logical structures based on specific visual task objectives (e.g., ensuring safety compliance, identifying specific object behaviors), simplifying expression complexity while maintaining original intent.\n3. Iterative Improvement: LLM repeatedly reviews and modifies symbolic expressions, ideally interacting with symbolic regression feedback loops to evaluate improvements in task accuracy or computational efficiency.\n\nCurrent task scenario elements:\n1. Available variable symbols: "
  ++ pyStrTop labels
  ++ "\n2. Supported operators: "
  ++ pyStrTop operators
  ++ "\n3. Example expression format: \x22and_(gt(x0, x2), or_(x1, x2))\x22, where x0, x1, x2 are variable symbols, gt, or_, and_ are operators\n4. Keep expressions concise, avoid overly complex expressions, minimize the use of operators and variable symbols.\n\nNote: Ensure that variable symbols exist in the current task scenario and operators are supported in the current task scenario!!!\n\nPlease think carefully, but provide your suggestions in the following format (maximum 3 suggestions):\n"
  ++ fmt
  ++ "\n"

/-- `PromptTemplates.create_system_prompt(labels, operators,
format_example)` as called by the INIT handler, with
`format_example = json.dumps(resp_format, indent=2, ensure_ascii=False)`. -/
def createSystemPrompt (labels operators : PyValue) : String :=
  systemTemplate labels operators respFormatText

/-- `PromptTemplates.FIRST_ROUND.format(top_individuals=ti)`. -/
def firstRoundPrompt (ti : String) : String :=
  "\nI\x27ve noticed the following well-performing individuals in the current population:\n\n"
  ++ ti
  ++ "\n\nAs the first round of interaction, please carefully analyze the characteristics of these expressions and provide improvement suggestions. You can:\n1. Analyze common patterns or unique features of these expressions\n2. Identify potential optimization opportunities\n3. Propose new expression combination methods\n\nPlease ensure your suggestions maintain the basic structure of expressions while trying to improve their performance.\n"

/-- `PromptTemplates.SUBSEQUENT_ROUND.format(top_individuals=ti,
previous_results=pr)`. -/
def subsequentRoundPrompt (ti pr : String) : String :=
  "\nI\x27ve noticed the following well-performing individuals in the current population:\n\n"
  ++ ti
  ++ "\n\nIn the previous round of interaction, your suggestions and their effects were as follows:\n\n"
  ++ pr
  ++ "\n\nBased on the above information, especially the effects of previous suggestions, please propose new improvement plans. You can:\n1. Learn from successful suggestions\n2. Analyze reasons for failed suggestions and avoid similar issues\n3. Incorporate characteristics of excellent individuals in the current population\n4. Provide maximum of 3 expressions in suggestions\n5. Keep expressions concise, avoid overly complex expressions, minimize operators and variable symbols.\n"

/-- The leading text of `PromptTemplates.ERROR_FEEDBACK` before the schema
example. -/
def fbPre : String :=
  "\nI noticed your last response had formatting issues. Please strictly follow this JSON format:\n\n"

/-- The text of `PromptTemplates.ERROR_FEEDBACK` between the schema example
and the error message. -/
def fbMid : String :=
  "\n\nError message: "

/-- The trailing text of `PromptTemplates.ERROR_FEEDBACK` after the error
message. -/
def fbPost : String :=
  "\n\nPlease regenerate your suggestions, ensuring:\n1. Response must be valid JSON format\n2. Include all required fields\n3. Expression field must use correct operators and variables\n4. Don\x27t wrap json data in markdown code blocks, just provide raw json data\n\n"

/-- `PromptTemplates.ERROR_FEEDBACK.format(format=json.dumps(resp_format,
indent=2, ensure_ascii=False), error=e)`. -/
def errorFeedback (e : String) : String :=
  fbPre ++ respFormatText ++ fbMid ++ e ++ fbPost

/-- Python `f"{v:.4f}"`: four-decimal fixed-point formatting.  Numeric
literals are modelled as integers (`bool` is an `int` subclass and formats
as 0/1); strings raise `ValueError`, other values `TypeError`, exactly the
handler classes the retry loop sorts them into. -/
def fmt4f : PyValue → Except PyExn String
  | .int n => .ok (toString n ++ ".0000")
  | .bool b => .ok ((if b then "1" else "0") ++ ".0000")
  | .str _ => .error ⟨.valueError, "Unknown format code \x27f\x27 for object of type \x27str\x27"⟩
  | v => .error ⟨.otherError, "unsupported format string passed to " ++ pyTypeName v ++ ".__format__"⟩

/-- The body of `PromptTemplates.format_top_individuals`: each individual
renders as `Individual i+1:` with its `expression` and `fitness` fields;
a missing field is a KeyError, a non-sequence input a TypeError. -/
def formatIndividualsAux : Nat → List PyValue → Except PyExn (List String)
  | _, [] => .ok []
  | i, ind :: rest => do
    let e ← pySubscript ind "expression"
    let f ← pySubscript ind "fitness"
    let fs ← fmt4f f
    let parts ← formatIndividualsAux (i + 1) rest
    .ok (("Individual " ++ toString (i + 1) ++ ":\n- Expression: " ++ pyStrTop e
          ++ "\n- Fitness: " ++ fs) :: parts)

/-- `PromptTemplates.format_top_individuals(individuals)`: the rendered
blocks joined with a newline. -/
def format_top_individuals (v : PyValue) : Except PyExn String := do
  let items ← pyIter v
  let parts ← formatIndividualsAux 0 items
  .ok (String.intercalate "\n" parts)

/-- The body of `PromptTemplates.format_previous_results`: one block per
prior suggestion, a success block showing expression, actual fitness and
reason, a failure block showing expression, evaluation error and reason. -/
def formatResultsAux : List PyValue → Except PyExn (List String)
  | [] => .ok []
  | sugg :: rest => do
    let st ← pySubscript sugg "status"
    let block ←
      if (match st with | .str s => s == "success" | _ => false) then do
        let e ← pySubscript sugg "expression"
        let f ← pySubscript sugg "fitness"
        let fs ← fmt4f f
        let r ← pySubscript sugg "reason"
        pure ("Suggested Expression: " ++ pyStrTop e ++ "\n- Actual Fitness: " ++ fs
              ++ "\n- Improvement Reason: " ++ pyStrTop r)
      else do
        let e ← pySubscript sugg "expression"
        let err ← pySubscript sugg "error"
        let r ← pySubscript sugg "reason"
        pure ("Suggested Expression: " ++ pyStrTop e ++ "\n- Evaluation Failed: " ++ pyStrTop err
              ++ "\n- Improvement Reason: " ++ pyStrTop r)
    let blocks ← formatResultsAux rest
    .ok (block :: blocks)

/-- `PromptTemplates.format_previous_results(suggestions)`: the blocks for
`suggestions['suggestions']` joined with a blank line. -/
def format_previous_results (v : PyValue) : Except PyExn String := do
  let suggs ← pySubscript v "suggestions"
  let items ← pyIter suggs
  let blocks ← formatResultsAux items
  .ok (String.intercalate "\n\n" blocks)

/-- The fixed suffix appended to every round prompt (schema example plus
the no-code-fence instruction). -/
def promptSuffix : String :=
  "\n\nPlease provide your suggestions in the following JSON format (give json data directly, don\x27t wrap in code blocks):\n"
  ++ respFormatText

/-- The round-prompt construction of the EVOLUTION_UPDATE handler: format
the top individuals, pick the first-round template when
`previous_suggestions` is None and the subsequent-round template otherwise,
then append the schema suffix.  An exception here is not caught by
`llama_main` and crashes the worker. -/
def buildUpdatePrompt (topIndividuals previousSuggestions : PyValue) : Except PyExn String := do
  let formatted ← format_top_individuals topIndividuals
  let prompt ←
    match previousSuggestions with
    | .none => pure (firstRoundPrompt formatted)
    | prev => do
      let fr ← format_previous_results prev
      pure (subsequentRoundPrompt formatted fr)
  .ok (prompt ++ promptSuffix)

/-- The `ValueError` raised when the parsed payload has no `suggestions`
key (`"Response missing 'suggestions' field"`). -/
def missingSuggErr : PyExn :=
  ⟨.valueError, "Response missing \x27suggestions\x27 field"⟩

/-- The `ValueError` raised when a suggestion element misses `expression`
or `reason`. -/
def missingFieldsErr : PyExn :=
  ⟨.valueError, "Suggestion missing required fields \x27expression\x27 or \x27reason\x27"⟩

/-- The `for suggestion in suggestion_payload['suggestions']` loop: check
`'expression' in suggestion`, then (short-circuit `or`) `'reason' in
suggestion`, raising on the first suggestion missing either. -/
def checkSuggestions : List PyValue → Except PyExn Unit
  | [] => .ok ()
  | s :: rest =>
    match pyContains s "expression" with
    | .error e => .error e
    | .ok b1 =>
      if b1 then
        match pyContains s "reason" with
        | .error e => .error e
        | .ok b2 => if b2 then checkSuggestions rest else .error missingFieldsErr
      else .error missingFieldsErr

/-- The post-parse schema check of `process_llm_response`: require a
`suggestions` member, then walk the suggestion elements requiring
`expression` and `reason` on each. -/
def validateSchema (p : PyValue) : Except PyExn Unit :=
  match pyContains p "suggestions" with
  | .error e => .error e
  | .ok b =>
    if b then
      match pySubscript p "suggestions" with
      | .error e => .error e
      | .ok sv =>
        match pyIter sv with
        | .error e => .error e
        | .ok items => checkSuggestions items
    else .error missingSuggErr

/-- The two-stage parse plus schema check of `process_llm_response` (lines
152-169): strict `json.loads` first; on its failure `ast.literal_eval`; on
both failing, `ValueError("Cannot parse response format: <ast error>")`;
then the schema check on whichever payload parsed. -/
def validateResponse (jl al : String → Except String PyValue) (text : String) :
    Except PyExn PyValue :=
  match jl text with
  | .ok p =>
    match validateSchema p with
    | .ok _ => .ok p
    | .error e => .error e
  | .error _ =>
    match al text with
    | .ok p =>
      match validateSchema p with
      | .ok _ => .ok p
      | .error e => .error e
    | .error e => .error ⟨.valueError, "Cannot parse response format: " ++ e⟩

/-- The outcome of the `try` body for one attempt, as a function of the
backend behaviour alone: a raised invocation exception propagates to the
`except` clauses untouched; a returned text is stripped and validated. -/
def attemptResult (jl al : String → Except String PyValue) :
    BackendResult → Except PyExn PyValue
  | .raise e => .error e
  | .respond text => validateResponse jl al text.trim

/-- The dialog effect of one attempt: a returned response is appended as an
assistant turn (line 149) before validation, while a raised invocation
exception reaches the `except` clauses before the append, leaving the
dialog unchanged. -/
def attemptDialogs (r : BackendResult) (d : List Turn) : List Turn :=
  match r with
  | .raise _ => d
  | .respond text => d ++ [⟨"assistant", text.trim⟩]

/-- The `error_msg` string bound by the two `except` clauses:
`ValueError`-class exceptions give `"Response format error: ..."`, every
other exception `"Unknown error: ..."`. -/
def errString (e : PyExn) : String :=
  match e.cls with
  | .valueError => "Response format error: " ++ e.msg
  | .otherError => "Unknown error: " ++ e.msg

/-- What one call of `process_llm_response` returns and effects: the Python
return value (`none` models the `None` fall-through when the loop body
never runs), the final dialog list, the envelopes put on `queue_snd` in
order, and the number of attempts performed (model bookkeeping, used to
advance the backend oracle across calls). -/
structure LlmRunResult where
  result : Option Bool
  dialogs : List Turn
  sent : List OutMsg
  attempts : Nat

/-- The `while retries < max_retries` loop of `process_llm_response`.  The
`fuel` argument only bounds the recursion; called with
`fuel = maxRetries - retries` it never runs out before the loop condition
fails, since every iteration either returns or increments `retries`. -/
def processLoop (jl al : String → Except String PyValue)
    (backend : Nat → BackendResult) (maxRetries : Nat) :
    Nat → Nat → List Turn → List OutMsg → LlmRunResult
  | 0, retries, d, sent => ⟨Option.none, d, sent, retries⟩
  | fuel + 1, retries, d, sent =>
    if retries < maxRetries then
      let d' := attemptDialogs (backend retries) d
      match attemptResult jl al (backend retries) with
      | .ok payload => ⟨some true, d', sent ++ [.suggestion payload], retries + 1⟩
      | .error e =>
        let errorMsg := errString e
        if retries + 1 < maxRetries then
          processLoop jl al backend maxRetries fuel (retries + 1)
            (d' ++ [⟨"user", errorFeedback errorMsg⟩]) sent
        else
          ⟨some false, d', sent ++ [.error errorMsg (retries + 1)], retries + 1⟩
    else ⟨Option.none, d, sent, retries⟩

/-- `process_llm_response(llm_client, model_name, dialogs, queue_snd,
max_retries)`: the retry loop entered with `retries = 0` and nothing yet
sent. -/
def process_llm_response (jl al : String → Except String PyValue)
    (backend : Nat → BackendResult) (maxRetries : Nat) (d : List Turn) :
    LlmRunResult :=
  processLoop jl al backend maxRetries maxRetries 0 d []

/-- The local state of `llama_main`: the system-prompt list
`init_dialogs`, the live conversation `dialogs`, the ordered writes to
`output.txt`, the envelopes put on `queue_snd`, and the position in the
backend oracle (model bookkeeping for the external call stream). -/
structure WorkerState where
  initDialogs : List Turn
  dialogs : List Turn
  transcript : List String
  sentOut : List OutMsg
  backendPos : Nat

/-- The state `llama_main` starts from: empty `init_dialogs` and `dialogs`,
nothing written, nothing sent. -/
def initialState : WorkerState :=
  ⟨[], [], [], [], 0⟩

/-- The INIT handler (lines 229-241): read `labels` and `operators` with
empty-list defaults, build the system prompt, and replace `init_dialogs`
with the single system turn.  `dialogs` is not touched. -/
def handleInit (s : WorkerState) (payload : List (String × PyValue)) : WorkerState :=
  let labels := pyGet payload "labels" (.list [])
  let operators := pyGet payload "operators" (.list [])
  { s with initDialogs := [⟨"system", createSystemPrompt labels operators⟩] }

/-- The THRESHOLD_START handler (lines 279-287): log the epoch info line to
`output.txt` and replace `dialogs` with `copy.deepcopy(init_dialogs)`
(value-level: the same turn sequence). -/
def handleThresholdStart (s : WorkerState) (payload : List (String × PyValue)) : WorkerState :=
  let threshold := pyGet payload "threshold" .none
  let trainSize := pyGet payload "train_size" .none
  let testSize := pyGet payload "test_size" .none
  let info := "Received threshold experiment start message: Threshold = " ++ pyStrTop threshold
    ++ ", Training set size = " ++ pyStrTop trainSize
    ++ ", Test set size = " ++ pyStrTop testSize
  { s with dialogs := s.initDialogs, transcript := s.transcript ++ [info ++ "\n"] }

/-- The line written to `output.txt` by the exit branch of the COMMAND
handler. -/
def exitBanner : String :=
  "\n============Conversation ended.============\n"

/-- The separator line written after each turn in the final transcript
dump. -/
def sepLine : String :=
  "==================================\n"

/-- One turn of the final transcript dump (lines 293-297): the two writes
`f"{msg['role'].capitalize()}: {msg['content']}\n\n"` and the separator
line, concatenated. -/
def turnBlock (t : Turn) : String :=
  pyCapitalize t.role ++ ": " ++ t.content ++ "\n\n" ++ sepLine

/-- One pass of the `while True` body of `llama_main` for a decoded
message: the new state plus whether the loop `break`s (exit command).  An
`Except.error` is an exception escaping the handler (none of the handler
code after deserialization is inside a `try`), which kills the worker. -/
def step (jl al : String → Except String PyValue) (backend : Nat → BackendResult)
    (s : WorkerState) (m : Msg) : Except PyExn (WorkerState × Bool) :=
  match m.msgType with
  | .INIT => .ok (handleInit s m.payload, false)
  | .COMMAND =>
    let command := pyGet m.payload "command" (.str "")
    if (match command with | .str c => c == "exit" | _ => false) then
      .ok ({ s with transcript := s.transcript ++ [exitBanner] }, true)
    else
      .ok (s, false)
  | .EVOLUTION_UPDATE =>
    let topIndividuals := pyGet m.payload "top_individuals" (.list [])
    let previousSuggestions := pyGet m.payload "previous_suggestions" .none
    match buildUpdatePrompt topIndividuals previousSuggestions with
    | .error e => .error e
    | .ok prompt =>
      let d := s.dialogs ++ [⟨"user", prompt⟩]
      let r := process_llm_response jl al (fun i => backend (s.backendPos + i)) 3 d
      .ok ({ s with
              dialogs := r.dialogs
              sentOut := s.sentOut ++ r.sent
              backendPos := s.backendPos + r.attempts }, false)
  | .THRESHOLD_START => .ok (handleThresholdStart s m.payload, false)
  | _ => .ok (s, false)

/-- The message loop of `llama_main` over a finite incoming message
sequence: process messages in order until the exit command breaks the loop
(second component `true`), the messages run out (`false`; in Python the
loop would keep polling), or a handler exception crashes the worker. -/
def runMsgs (jl al : String → Except String PyValue) (backend : Nat → BackendResult)
    (s : WorkerState) : List Msg → Except PyExn (WorkerState × Bool)
  | [] => .ok (s, false)
  | m :: rest =>
    match step jl al backend s m with
    | .error e => .error e
    | .ok (s', true) => .ok (s', true)
    | .ok (s', false) => runMsgs jl al backend s' rest

/-- `llama_main` from a given state over a finite incoming message
sequence: run the loop; when it terminated through the exit command, dump
every accumulated turn to `output.txt` as a role-tagged block, in order. -/
def llamaMainFrom (jl al : String → Except String PyValue) (backend : Nat → BackendResult)
    (s : WorkerState) (msgs : List Msg) : Except PyExn WorkerState :=
  match runMsgs jl al backend s msgs with
  | .error e => .error e
  | .ok (s', true) => .ok { s' with transcript := s'.transcript ++ s'.dialogs.map turnBlock }
  | .ok (s', false) => .ok s'

/-- `llama_main` started from its initial state. -/
def llamaMain (jl al : String → Except String PyValue) (backend : Nat → BackendResult)
    (msgs : List Msg) : Except PyExn WorkerState :=
  llamaMainFrom jl al backend initialState msgs

/-- The canonical exit envelope, `COMMAND{command: "exit"}`. -/
def exitCmd : Msg :=
  ⟨.COMMAND, [("command", .str "exit")]⟩

/-- Object-level model of the conversation lists for the deep-copy
behaviour of `dialogs = copy.deepcopy(init_dialogs)` (line 285): turn
dictionaries are mutable heap cells addressed by their index into `store`,
and `init_dialogs` / `dialogs` are lists of cell addresses.  Python value
mutation of a turn is `setCell`; `deepcopy` allocates fresh cells. -/
structure ConvHeap where
  store : List Turn
  initTurns : List Nat
  liveTurns : List Nat

/-- Read one heap cell. -/
def readCell (store : List Turn) (a : Nat) : Turn :=
  (store[a]?).getD ⟨"", ""⟩

/-- Read a sequence of turn cells. -/
def readAddrs (store : List Turn) (addrs : List Nat) : List Turn :=
  addrs.map (readCell store)

/-- Overwrite one heap cell: mutation of a turn dictionary in place. -/
def setCell (h : ConvHeap) (a : Nat) (t : Turn) : ConvHeap :=
  { h with store := h.store.set a t }

/-- All prefix addresses point into the heap. -/
def HeapWF (h : ConvHeap) : Prop :=
  ∀ a ∈ h.initTurns, a < h.store.length

/-- `dialogs = copy.deepcopy(init_dialogs)` at the heap level: allocate one
fresh cell per prefix turn, holding a copy of its current value, and point
`dialogs` at the fresh cells.  `init_dialogs` keeps its own cells. -/
def heapThresholdStart (h : ConvHeap) : ConvHeap :=
  let contents := h.initTurns.map (readCell h.store)
  { store := h.store ++ contents
    initTurns := h.initTurns
    liveTurns := List.range' h.store.length contents.length }

/-- The payload the two-stage parse settles on: the strict parse's value
when it succeeds, otherwise the permissive parse's value when that
succeeds, otherwise nothing. -/
def parsedPayload (jl al : String → Except String PyValue) (text : String) : Option PyValue :=
  match jl text with
  | .ok p => some p
  | .error _ =>
    match al text with
    | .ok p => some p
    | .error _ => Option.none

/-- A membership test that ran without exception and returned True. -/
def okTrue : Except PyExn Bool → Bool
  | .ok true => true
  | _ => false

/-- A suggestion element passes the per-element check: Python-membership
of both `expression` and `reason` holds without exception. -/
def bothFieldsB (x : PyValue) : Bool :=
  okTrue (pyContains x "expression") && okTrue (pyContains x "reason")

/-- Declarative restatement of the whole schema check: the payload
contains `suggestions` (Python membership, no exception), its
`suggestions` member is subscriptable and iterable, and every element
passes `bothFieldsB`. -/
def pySchemaOkB (p : PyValue) : Bool :=
  okTrue (pyContains p "suggestions") &&
  (match pySubscript p "suggestions" with
   | .ok sv =>
     match pyIter sv with
     | .ok items => items.all bothFieldsB
     | .error _ => false
   | .error _ => false)

/-- Claim-side reading of "every element of `suggestions` contains both
`expression` and `reason`": the element is a dictionary holding both
keys. -/
def bothFieldsClaimB : PyValue → Bool
  | .dict kvs => (kvs.any fun kv => kv.1 == "expression") && (kvs.any fun kv => kv.1 == "reason")
  | _ => false

/-- Claim-side reading of "the payload contains a `suggestions` key and
every element of `suggestions` contains both `expression` and `reason`". -/
def specSchemaOkClaim : PyValue → Bool
  | .dict kvs =>
    match kvs.find? (fun kv => kv.1 == "suggestions") with
    | some kv => match kv.2 with | .list xs => xs.all bothFieldsClaimB | _ => false
    | Option.none => false
  | _ => false

/-- `needle` occurs contiguously inside `hay`. -/
def strContainsP (hay needle : String) : Prop :=
  ∃ p q, hay = p ++ needle ++ q

/-- Modelled from the claim's words for C7: one transcript block per turn
consisting of the role label, a blank line, the turn content, and then a
separator line. -/
def specTurnBlock (t : Turn) : String :=
  t.role ++ "\n" ++ "\n" ++ t.content ++ "\n" ++ sepLine

/-- Claim C3 as stated: handling INIT also sets the live turn history to a
copy of the new system-prompt list. -/
def claimC3 : Prop :=
  ∀ (s : WorkerState) (payload : List (String × PyValue)),
    (handleInit s payload).dialogs = (handleInit s payload).initDialogs

/-- Claim C4's post-parse clause as stated: whichever parse succeeded, the
validator succeeds exactly on payloads satisfying the claimed schema
condition, and everything else fails with one of the two schema
`ValueError`s. -/
def claimC4 : Prop :=
  ∀ (jl al : String → Except String PyValue) (text : String) (p : PyValue),
    parsedPayload jl al text = some p →
    if specSchemaOkClaim p then validateResponse jl al text = .ok p
    else validateResponse jl al text = .error missingSuggErr
      ∨ validateResponse jl al text = .error missingFieldsErr

/-- Claim C5 as stated: every attempt appends the raw model response as an
assistant turn, and a failed, retriable attempt (assistant turn plus
feedback turn) grows the dialog by exactly 2 turns. -/
def claimC5 : Prop :=
  (∀ (r : BackendResult) (d : List Turn),
    ∃ t : String, attemptDialogs r d = d ++ [Turn.mk "assistant" t]) ∧
  (∀ (jl al : String → Except String PyValue) (r : BackendResult) (d : List Turn) (e : PyExn),
    attemptResult jl al r = .error e →
    (attemptDialogs r d ++ [Turn.mk "user" (errorFeedback (errString e))]).length = d.length + 2)

/-- Claim C7's formatting clause as stated: the transcript block of a turn
is the role label, a blank line, the content, then the separator line. -/
def claimC7format : Prop :=
  ∀ t : Turn, turnBlock t = specTurnBlock t

/-- Claim C9's conversion clause as stated: when the backend invocation
raises, the worker reports `Unknown error: <message>` after exhausting the
retry budget, whatever the exception was. -/
def claimC9 : Prop :=
  ∀ (jl al : String → Except String PyValue) (e : PyExn) (d : List Turn),
    (process_llm_response jl al (fun _ => .raise e) 3 d).sent
      = [OutMsg.error ("Unknown error: " ++ e.msg) 3]

/-- Whether an attempt with the given backend behaviour passes validation
(regardless of the dialog state, which the outcome does not depend on). -/
def attemptOkB (jl al : String → Except String PyValue) (r : BackendResult) : Bool :=
  match attemptResult jl al r with
  | .ok _ => true
  | .error _ => false

theorem checkSuggestions_ok_iff (xs : List PyValue) :
    checkSuggestions xs = .ok () ↔ xs.all bothFieldsB = true := by
  induction xs with
  | nil => simp [checkSuggestions]
  | cons x rest ih =>
    simp only [checkSuggestions, List.all_cons, Bool.and_eq_true, bothFieldsB]
    cases h1 : pyContains x "expression" with
    | error e => simp [okTrue, h1]
    | ok b1 =>
      cases b1 with
      | false => simp [okTrue, h1]
      | true =>
        cases h2 : pyContains x "reason" with
        | error e => simp [okTrue, h1, h2]
        | ok b2 =>
          cases b2 with
          | false => simp [okTrue, h1, h2]
          | true => simpa [okTrue, h1, h2] using ih

theorem checkSuggestions_dicts_fail (xs : List PyValue)
    (hdicts : ∀ x ∈ xs, ∃ kvx, x = PyValue.dict kvx)
    (hbad : xs.all bothFieldsB = false) :
    checkSuggestions xs = .error missingFieldsErr := by
  induction xs with
  | nil => simp at hbad
  | cons x rest ih =>
    obtain ⟨kvx, hx⟩ := hdicts x (List.mem_cons_self x rest)
    subst hx
    have hrest : ∀ y ∈ rest, ∃ kvy, y = PyValue.dict kvy :=
      fun y hy => hdicts y (List.mem_cons_of_mem _ hy)
    cases hk1 : (kvx.any fun kv => kv.1 == "expression") with
    | false => simp [checkSuggestions, pyContains, hk1]
    | true =>
      cases hk2 : (kvx.any fun kv => kv.1 == "reason") with
      | false => simp [checkSuggestions, pyContains, hk1, hk2]
      | true =>
        have hxb : bothFieldsB (PyValue.dict kvx) = true := by
          simp [bothFieldsB, okTrue, pyContains, hk1, hk2]
        simp only [List.all_cons, hxb, Bool.true_and] at hbad
        simpa [checkSuggestions, pyContains, hk1, hk2] using ih hrest hbad

theorem validateSchema_ok_iff (p : PyValue) :
    validateSchema p = .ok () ↔ pySchemaOkB p = true := by
  simp only [validateSchema, pySchemaOkB]
  cases hc : pyContains p "suggestions" with
  | error e => simp [okTrue, hc]
  | ok b =>
    cases b with
    | false => simp [okTrue, hc]
    | true =>
      cases hs : pySubscript p "suggestions" with
      | error e => simp [okTrue, hc, hs]
      | ok sv =>
        cases hi : pyIter sv with
        | error e => simp [okTrue, hc, hs, hi]
        | ok items => simpa [okTrue, hc, hs, hi] using checkSuggestions_ok_iff items

theorem validateResponse_parsed (jl al : String → Except String PyValue) (text : String)
    (p : PyValue) (h : parsedPayload jl al text = some p) :
    validateResponse jl al text
      = (match validateSchema p with | .ok _ => .ok p | .error e => .error e) := by
  unfold parsedPayload at h
  unfold validateResponse
  cases hj : jl text with
  | ok q => simp [hj] at h; subst h; rfl
  | error e1 =>
    cases ha : al text with
    | ok q => simp [hj, ha] at h; subst h; simp [hj, ha]
    | error e2 => simp [hj, ha] at h

theorem readAddrs_append_of_lt (store ext : List Turn) (addrs : List Nat)
    (h : ∀ a ∈ addrs, a < store.length) :
    readAddrs (store ++ ext) addrs = readAddrs store addrs := by
  unfold readAddrs
  exact List.map_congr_left fun a ha => by
    unfold readCell
    rw [List.getElem?_append_left (h a ha)]

theorem readAddrs_range' (store ext : List Turn) :
    readAddrs (store ++ ext) (List.range' store.length ext.length) = ext := by
  induction ext generalizing store with
  | nil => simp [readAddrs]
  | cons t ext' ih =>
    have h1 : store ++ t :: ext' = (store ++ [t]) ++ ext' := by simp
    have h2 : store.length + 1 = (store ++ [t]).length := by simp
    simp only [List.length_cons, List.range'_succ, readAddrs, List.map_cons]
    congr 1
    · unfold readCell
      rw [List.getElem?_append_right (Nat.le_refl _), Nat.sub_self]
      simp
    · show readAddrs (store ++ t :: ext') (List.range' (store.length + 1) ext'.length) = ext'
      rw [h1, h2]
      exact ih (store ++ [t])

theorem readAddrs_set_of_ne (store : List Turn) (addrs : List Nat) (a : Nat) (t : Turn)
    (h : ∀ b ∈ addrs, b ≠ a) :
    readAddrs (store.set a t) addrs = readAddrs store addrs := by
  unfold readAddrs
  exact List.map_congr_left fun b hb => by
    unfold readCell
    rw [List.getElem?_set_ne (Ne.symm (h b hb))]

theorem processLoop3_ok (jl al : String → Except String PyValue) (backend : Nat → BackendResult)
    (fuel retries : Nat) (d : List Turn) (sent : List OutMsg) (p : PyValue)
    (hret : retries < 3) (h : attemptResult jl al (backend retries) = .ok p) :
    processLoop jl al backend 3 (fuel + 1) retries d sent
      = ⟨some true, attemptDialogs (backend retries) d, sent ++ [.suggestion p], retries + 1⟩ := by
  simp [processLoop, hret, h]

theorem processLoop3_retry (jl al : String → Except String PyValue) (backend : Nat → BackendResult)
    (fuel retries : Nat) (d : List Turn) (sent : List OutMsg) (e : PyExn)
    (hret : retries < 3) (h : attemptResult jl al (backend retries) = .error e)
    (hnext : retries + 1 < 3) :
    processLoop jl al backend 3 (fuel + 1) retries d sent
      = processLoop jl al backend 3 fuel (retries + 1)
          (attemptDialogs (backend retries) d ++ [Turn.mk "user" (errorFeedback (errString e))])
          sent := by
  simp [processLoop, hret, h, hnext]

theorem processLoop3_last (jl al : String → Except String PyValue) (backend : Nat → BackendResult)
    (fuel retries : Nat) (d : List Turn) (sent : List OutMsg) (e : PyExn)
    (hret : retries < 3) (h : attemptResult jl al (backend retries) = .error e)
    (hnext : ¬ retries + 1 < 3) :
    processLoop jl al backend 3 (fuel + 1) retries d sent
      = ⟨some false, attemptDialogs (backend retries) d,
          sent ++ [.error (errString e) (retries + 1)], retries + 1⟩ := by
  simp [processLoop, hret, h, hnext]

theorem process3_cases (jl al : String → Except String PyValue) (backend : Nat → BackendResult)
    (d : List Turn) :
    process_llm_response jl al backend 3 d =
      match attemptResult jl al (backend 0) with
      | .ok p => ⟨some true, attemptDialogs (backend 0) d, [.suggestion p], 1⟩
      | .error e0 =>
        match attemptResult jl al (backend 1) with
        | .ok p => ⟨some true,
            attemptDialogs (backend 1)
              (attemptDialogs (backend 0) d ++ [Turn.mk "user" (errorFeedback (errString e0))]),
            [.suggestion p], 2⟩
        | .error e1 =>
          match attemptResult jl al (backend 2) with
          | .ok p => ⟨some true,
              attemptDialogs (backend 2)
                (attemptDialogs (backend 1)
                    (attemptDialogs (backend 0) d
                      ++ [Turn.mk "user" (errorFeedback (errString e0))])
                  ++ [Turn.mk "user" (errorFeedback (errString e1))]),
              [.suggestion p], 3⟩
          | .error e2 => ⟨some false,
              attemptDialogs (backend 2)
                (attemptDialogs (backend 1)
                    (attemptDialogs (backend 0) d
                      ++ [Turn.mk "user" (errorFeedback (errString e0))])
                  ++ [Turn.mk "user" (errorFeedback (errString e1))]),
              [.error (errString e2) 3], 3⟩ := by
  unfold process_llm_response
  cases h0 : attemptResult jl al (backend 0) with
  | ok p =>
    have s1 : processLoop jl al backend 3 3 0 d []
        = ⟨some true, attemptDialogs (backend 0) d, [] ++ [.suggestion p], 0 + 1⟩ :=
      processLoop3_ok jl al backend 2 0 d [] p (by decide) h0
    rw [s1]; simp
  | error e0 =>
    have s1 : processLoop jl al backend 3 3 0 d []
        = processLoop jl al backend 3 2 1
            (attemptDialogs (backend 0) d ++ [Turn.mk "user" (errorFeedback (errString e0))])
            [] :=
      processLoop3_retry jl al backend 2 0 d [] e0 (by decide) h0 (by decide)
    rw [s1]
    cases h1 : attemptResult jl al (backend 1) with
    | ok p =>
      have s2 := processLoop3_ok jl al backend 1 1
        (attemptDialogs (backend 0) d ++ [Turn.mk "user" (errorFeedback (errString e0))]) [] p
        (by decide) h1
      rw [s2]; simp
    | error e1 =>
      have s2 := processLoop3_retry jl al backend 1 1
        (attemptDialogs (backend 0) d ++ [Turn.mk "user" (errorFeedback (errString e0))]) [] e1
        (by decide) h1 (by decide)
      rw [s2]
      cases h2 : attemptResult jl al (backend 2) with
      | ok p =>
        have s3 := processLoop3_ok jl al backend 0 2
          (attemptDialogs (backend 1)
              (attemptDialogs (backend 0) d ++ [Turn.mk "user" (errorFeedback (errString e0))])
            ++ [Turn.mk "user" (errorFeedback (errString e1))]) [] p
          (by decide) h2
        rw [s3]; simp
      | error e2 =>
        have s3 := processLoop3_last jl al backend 0 2
          (attemptDialogs (backend 1)
              (attemptDialogs (backend 0) d ++ [Turn.mk "user" (errorFeedback (errString e0))])
            ++ [Turn.mk "user" (errorFeedback (errString e1))]) [] e2
          (by decide) h2 (by decide)
        rw [s3]; simp

/-- C1: for every backend behaviour, a single call of
`process_llm_response` with the worker's `max_retries = 3` puts exactly
one envelope on `queue_snd`: either one SUGGESTION or one ERROR — never
zero envelopes, never both. -/
theorem c1_exactly_one_envelope (jl al : String → Except String PyValue)
    (backend : Nat → BackendResult) (d : List Turn) :
    (∃ p, (process_llm_response jl al backend 3 d).sent = [OutMsg.suggestion p])
    ∨ (∃ m r, (process_llm_response jl al backend 3 d).sent = [OutMsg.error m r]) := by
  rw [process3_cases]
  cases attemptResult jl al (backend 0) with
  | ok p => exact Or.inl ⟨p, rfl⟩
  | error e0 =>
    cases attemptResult jl al (backend 1) with
    | ok p => exact Or.inl ⟨p, rfl⟩
    | error e1 =>
      cases attemptResult jl al (backend 2) with
      | ok p => exact Or.inl ⟨p, rfl⟩
      | error e2 => exact Or.inr ⟨errString e2, 3, rfl⟩

/-- C2: with `max_retries = 3` and three consecutive validation failures,
`process_llm_response` returns False, appends the three assistant turns
and the two retriable feedback turns, and sends exactly one ERROR envelope
carrying the last error message and `retries = 3` (in particular, no
SUGGESTION envelope). -/
theorem c2_three_failures_one_error (jl al : String → Except String PyValue)
    (backend : Nat → BackendResult) (d : List Turn)
    (t0 t1 t2 : String) (e0 e1 e2 : PyExn)
    (hb0 : backend 0 = .respond t0) (hv0 : validateResponse jl al t0.trim = .error e0)
    (hb1 : backend 1 = .respond t1) (hv1 : validateResponse jl al t1.trim = .error e1)
    (hb2 : backend 2 = .respond t2) (hv2 : validateResponse jl al t2.trim = .error e2) :
    process_llm_response jl al backend 3 d =
      ⟨some false,
        d ++ [Turn.mk "assistant" t0.trim, Turn.mk "user" (errorFeedback (errString e0)),
              Turn.mk "assistant" t1.trim, Turn.mk "user" (errorFeedback (errString e1)),
              Turn.mk "assistant" t2.trim],
        [OutMsg.error (errString e2) 3], 3⟩ := by
  have h0 : attemptResult jl al (backend 0) = .error e0 := by rw [hb0]; exact hv0
  have h1 : attemptResult jl al (backend 1) = .error e1 := by rw [hb1]; exact hv1
  have h2 : attemptResult jl al (backend 2) = .error e2 := by rw [hb2]; exact hv2
  rw [process3_cases, h0, h1, h2, hb0, hb1, hb2]
  simp [attemptDialogs]

/-- Witness for C2 at a concrete backend that always answers `"oops"` with
both parsers failing. -/
theorem c2_witness :
    validateResponse (fun _ => Except.error "Expecting value")
        (fun _ => Except.error "invalid syntax") ("oops".trim)
      = .error ⟨ExnClass.valueError, "Cannot parse response format: " ++ "invalid syntax"⟩
    ∧ process_llm_response (fun _ => Except.error "Expecting value")
        (fun _ => Except.error "invalid syntax") (fun _ => BackendResult.respond "oops") 3 []
      = ⟨some false,
          [] ++ [Turn.mk "assistant" ("oops".trim),
                 Turn.mk "user" (errorFeedback (errString
                   ⟨ExnClass.valueError, "Cannot parse response format: " ++ "invalid syntax"⟩)),
                 Turn.mk "assistant" ("oops".trim),
                 Turn.mk "user" (errorFeedback (errString
                   ⟨ExnClass.valueError, "Cannot parse response format: " ++ "invalid syntax"⟩)),
                 Turn.mk "assistant" ("oops".trim)],
          [OutMsg.error (errString
            ⟨ExnClass.valueError, "Cannot parse response format: " ++ "invalid syntax"⟩) 3], 3⟩ :=
  ⟨rfl,
    c2_three_failures_one_error (fun _ => Except.error "Expecting value")
      (fun _ => Except.error "invalid syntax") (fun _ => BackendResult.respond "oops") []
      "oops" "oops" "oops"
      ⟨ExnClass.valueError, "Cannot parse response format: " ++ "invalid syntax"⟩
      ⟨ExnClass.valueError, "Cannot parse response format: " ++ "invalid syntax"⟩
      ⟨ExnClass.valueError, "Cannot parse response format: " ++ "invalid syntax"⟩
      rfl rfl rfl rfl rfl rfl⟩

/-- Counterexample for C3 as stated: right after the first INIT from the
initial state, `dialogs` is still empty while `init_dialogs` holds the
system turn, so the turn history does not begin with (a copy of) the
prefix. -/
theorem c3_counterexample : ¬ claimC3 := by
  intro h
  have := h initialState []
  simp [handleInit, initialState] at this

/-- C3 (amended): INIT replaces `init_dialogs` with the single system turn
built from the `labels` and `operators` payload fields, and leaves the
live turn history `dialogs` unchanged; the history begins with the prefix
only once a later THRESHOLD_START copies it over. -/
theorem c3_init_sets_only_the_prefix (s : WorkerState) (payload : List (String × PyValue)) :
    (handleInit s payload).initDialogs
      = [Turn.mk "system" (createSystemPrompt (pyGet payload "labels" (.list []))
          (pyGet payload "operators" (.list [])))]
    ∧ (handleInit s payload).dialogs = s.dialogs
    ∧ (handleThresholdStart (handleInit s payload) []).dialogs
      = (handleInit s payload).initDialogs :=
  ⟨rfl, rfl, rfl⟩

/-- C10: a second INIT while the worker is active replaces only
`init_dialogs`; the live turn history, the transcript and the outbox are
untouched, and the new system prompt reaches the conversation exactly when
the next THRESHOLD_START copies the prefix over. -/
theorem c10_init_replaces_only_prefix (s : WorkerState) (p q : List (String × PyValue)) :
    (handleInit s p).dialogs = s.dialogs
    ∧ (handleInit s p).transcript = s.transcript
    ∧ (handleInit s p).sentOut = s.sentOut
    ∧ (handleThresholdStart (handleInit s p) q).dialogs = (handleInit s p).initDialogs :=
  ⟨rfl, rfl, rfl, rfl⟩

/-- C8: the first-round prompt construction on an empty individuals list
raises no exception: the individuals section renders as the empty listing
and the whole round prompt is produced. -/
theorem c8_empty_individuals_ok :
    format_top_individuals (PyValue.list []) = .ok ""
    ∧ buildUpdatePrompt (PyValue.list []) PyValue.none
      = .ok (firstRoundPrompt "" ++ promptSuffix) :=
  ⟨rfl, rfl⟩

/-- Counterexample for C5 as stated: an attempt whose invocation raises
appends no assistant turn, so a failed retriable attempt can grow the
dialog by 1 turn, not 2. -/
theorem c5_counterexample : ¬ claimC5 := by
  intro h
  have h2 := h.2 (fun _ => Except.error "x") (fun _ => Except.error "y")
    (.raise ⟨ExnClass.otherError, "boom"⟩) [] ⟨ExnClass.otherError, "boom"⟩ rfl
  simp [attemptDialogs] at h2

/-- C5 (amended): an attempt that receives a model response appends the
stripped response as an assistant turn while a raising invocation appends
nothing; every failed, retriable attempt additionally appends exactly one
feedback turn containing the canonical schema and the error text; hence
the dialog grows by exactly 2 turns per failed retriable attempt that
returned a response and by exactly 1 when the invocation raised. -/
theorem c5_dialog_growth (jl al : String → Except String PyValue) :
    (∀ (t : String) (d : List Turn),
      attemptDialogs (.respond t) d = d ++ [Turn.mk "assistant" t.trim])
    ∧ (∀ (e : PyExn) (d : List Turn), attemptDialogs (.raise e) d = d)
    ∧ (∀ (backend : Nat → BackendResult) (fuel retries : Nat) (d : List Turn)
        (sent : List OutMsg) (e : PyExn),
        retries < 3 → attemptResult jl al (backend retries) = .error e → retries + 1 < 3 →
        processLoop jl al backend 3 (fuel + 1) retries d sent
          = processLoop jl al backend 3 fuel (retries + 1)
              (attemptDialogs (backend retries) d
                ++ [Turn.mk "user" (errorFeedback (errString e))]) sent)
    ∧ (∀ m : String,
        strContainsP (errorFeedback m) respFormatText ∧ strContainsP (errorFeedback m) m)
    ∧ (∀ (t : String) (d : List Turn) (e : PyExn),
        attemptResult jl al (.respond t) = .error e →
        (attemptDialogs (.respond t) d
          ++ [Turn.mk "user" (errorFeedback (errString e))]).length = d.length + 2)
    ∧ (∀ (d : List Turn) (e : PyExn),
        (attemptDialogs (.raise e) d
          ++ [Turn.mk "user" (errorFeedback (errString e))]).length = d.length + 1) := by
  refine ⟨fun t d => rfl, fun e d => rfl, ?_, ?_, ?_, ?_⟩
  · intro backend fuel retries d sent e hret h hnext
    exact processLoop3_retry jl al backend fuel retries d sent e hret h hnext
  · intro m
    constructor
    · refine ⟨fbPre, fbMid ++ m ++ fbPost, ?_⟩
      simp [errorFeedback, String.append_assoc]
    · refine ⟨fbPre ++ respFormatText ++ fbMid, fbPost, ?_⟩
      simp [errorFeedback, String.append_assoc]
  · intro t d e _
    simp [attemptDialogs]
  · intro d e
    simp [attemptDialogs]

/-- Witness for C5 at a concrete failing responded attempt. -/
theorem c5_witness :
    attemptResult (fun _ => Except.error "x") (fun _ => Except.error "y")
        (.respond "bad")
      = .error ⟨ExnClass.valueError, "Cannot parse response format: " ++ "y"⟩
    ∧ (attemptDialogs (.respond "bad") []
        ++ [Turn.mk "user" (errorFeedback (errString
              ⟨ExnClass.valueError, "Cannot parse response format: " ++ "y"⟩))]).length
      = ([] : List Turn).length + 2 :=
  ⟨rfl,
    (c5_dialog_growth (fun _ => Except.error "x") (fun _ => Except.error "y")).2.2.2.2.1
      "bad" [] ⟨ExnClass.valueError, "Cannot parse response format: " ++ "y"⟩ rfl⟩

/-- Counterexample for C9 as stated: a backend invocation that raises a
`ValueError`-class exception is caught by the first handler and reported
as `Response format error: ...`, not as an `Unknown error: ...`. -/
theorem c9_counterexample : ¬ claimC9 := by
  intro h
  have hc := h (fun _ => Except.error "x") (fun _ => Except.error "y")
    ⟨ExnClass.valueError, "boom"⟩ []
  rw [process3_cases] at hc
  simp only [attemptResult, errString] at hc
  have : ("Response format error: " ++ "boom") = ("Unknown error: " ++ "boom") := by
    have := List.cons.inj hc
    exact (OutMsg.error.inj this.1).1
  exact absurd this (by decide)

/-- C9 (amended): `process_llm_response` is total — for every backend
behaviour it returns a boolean (with `max_retries = 3` the `None`
fall-through is unreachable); a raising invocation is caught, reported as
`Unknown error: ...` for a generic exception but as
`Response format error: ...` for a `ValueError`-class one; and a failing
attempt consumes exactly the same retry budget whatever the failure kind:
runs whose attempts fail in the same positions return the same result,
send the same number of envelopes and consume the same number of
attempts. -/
theorem c9_totality_and_shared_budget (jl al : String → Except String PyValue)
    (backend : Nat → BackendResult) (d : List Turn) :
    (∃ b : Bool, (process_llm_response jl al backend 3 d).result = some b)
    ∧ (∀ m, errString ⟨ExnClass.otherError, m⟩ = "Unknown error: " ++ m)
    ∧ (∀ m, errString ⟨ExnClass.valueError, m⟩ = "Response format error: " ++ m)
    ∧ (∀ (backend2 : Nat → BackendResult) (d2 : List Turn),
        (∀ i, attemptOkB jl al (backend i) = attemptOkB jl al (backend2 i)) →
        (process_llm_response jl al backend 3 d).result
            = (process_llm_response jl al backend2 3 d2).result
        ∧ (process_llm_response jl al backend 3 d).sent.length
            = (process_llm_response jl al backend2 3 d2).sent.length
        ∧ (process_llm_response jl al backend 3 d).attempts
            = (process_llm_response jl al backend2 3 d2).attempts) := by
  refine ⟨?_, fun m => rfl, fun m => rfl, ?_⟩
  · rw [process3_cases]
    cases attemptResult jl al (backend 0) with
    | ok p => exact ⟨true, rfl⟩
    | error e0 =>
      cases attemptResult jl al (backend 1) with
      | ok p => exact ⟨true, rfl⟩
      | error e1 =>
        cases attemptResult jl al (backend 2) with
        | ok p => exact ⟨true, rfl⟩
        | error e2 => exact ⟨false, rfl⟩
  · intro backend2 d2 hsame
    rw [process3_cases jl al backend d, process3_cases jl al backend2 d2]
    have hs0 := hsame 0
    have hs1 := hsame 1
    have hs2 := hsame 2
    cases hA0 : attemptResult jl al (backend 0) with
    | ok p0 =>
      cases hB0 : attemptResult jl al (backend2 0) with
      | ok q0 => exact ⟨rfl, rfl, rfl⟩
      | error f0 => simp [attemptOkB, hA0, hB0] at hs0
    | error e0 =>
      cases hB0 : attemptResult jl al (backend2 0) with
      | ok q0 => simp [attemptOkB, hA0, hB0] at hs0
      | error f0 =>
        cases hA1 : attemptResult jl al (backend 1) with
        | ok p1 =>
          cases hB1 : attemptResult jl al (backend2 1) with
          | ok q1 => exact ⟨rfl, rfl, rfl⟩
          | error f1 => simp [attemptOkB, hA1, hB1] at hs1
        | error e1 =>
          cases hB1 : attemptResult jl al (backend2 1) with
          | ok q1 => simp [attemptOkB, hA1, hB1] at hs1
          | error f1 =>
            cases hA2 : attemptResult jl al (backend 2) with
            | ok p2 =>
              cases hB2 : attemptResult jl al (backend2 2) with
              | ok q2 => exact ⟨rfl, rfl, rfl⟩
              | error f2 => simp [attemptOkB, hA2, hB2] at hs2
            | error e2 =>
              cases hB2 : attemptResult jl al (backend2 2) with
              | ok q2 => simp [attemptOkB, hA2, hB2] at hs2
              | error f2 => exact ⟨rfl, rfl, rfl⟩

/-- Witness for C9: a backend that always raises and one that always
returns unparseable text fail in the same positions and are
indistinguishable in result, envelope count and consumed budget. -/
theorem c9_witness :
    (∀ i : Nat,
      attemptOkB (fun _ => Except.error "x") (fun _ => Except.error "y")
          ((fun _ => BackendResult.raise ⟨ExnClass.otherError, "boom"⟩) i)
        = attemptOkB (fun _ => Except.error "x") (fun _ => Except.error "y")
            ((fun _ => BackendResult.respond "bad") i))
    ∧ ((process_llm_response (fun _ => Except.error "x") (fun _ => Except.error "y")
          (fun _ => BackendResult.raise ⟨ExnClass.otherError, "boom"⟩) 3 []).result
        = (process_llm_response (fun _ => Except.error "x") (fun _ => Except.error "y")
            (fun _ => BackendResult.respond "bad") 3 []).result
      ∧ (process_llm_response (fun _ => Except.error "x") (fun _ => Except.error "y")
          (fun _ => BackendResult.raise ⟨ExnClass.otherError, "boom"⟩) 3 []).sent.length
        = (process_llm_response (fun _ => Except.error "x") (fun _ => Except.error "y")
            (fun _ => BackendResult.respond "bad") 3 []).sent.length
      ∧ (process_llm_response (fun _ => Except.error "x") (fun _ => Except.error "y")
          (fun _ => BackendResult.raise ⟨ExnClass.otherError, "boom"⟩) 3 []).attempts
        = (process_llm_response (fun _ => Except.error "x") (fun _ => Except.error "y")
            (fun _ => BackendResult.respond "bad") 3 []).attempts) :=
  ⟨fun _ => rfl,
    (c9_totality_and_shared_budget (fun _ => Except.error "x") (fun _ => Except.error "y")
      (fun _ => BackendResult.raise ⟨ExnClass.otherError, "boom"⟩) []).2.2.2
      (fun _ => BackendResult.respond "bad") [] (fun _ => rfl)⟩

/-- C6: at the heap level, THRESHOLD_START points `dialogs` at fresh cells
whose contents equal the prefix cells (deep copy), the fresh addresses are
disjoint from the prefix addresses, and overwriting any turn reachable
from `dialogs` leaves every turn read through `init_dialogs` unchanged. -/
theorem c6_deepcopy_no_aliasing (h : ConvHeap) (hwf : HeapWF h) :
    readAddrs (heapThresholdStart h).store (heapThresholdStart h).liveTurns
      = readAddrs (heapThresholdStart h).store (heapThresholdStart h).initTurns
    ∧ (∀ a ∈ (heapThresholdStart h).liveTurns, a ∉ (heapThresholdStart h).initTurns)
    ∧ (∀ a ∈ (heapThresholdStart h).liveTurns, ∀ t : Turn,
        readAddrs (setCell (heapThresholdStart h) a t).store
            (setCell (heapThresholdStart h) a t).initTurns
          = readAddrs (heapThresholdStart h).store (heapThresholdStart h).initTurns) := by
  simp only [heapThresholdStart, setCell]
  refine ⟨?_, ?_, ?_⟩
  · rw [readAddrs_range']
    rw [readAddrs_append_of_lt h.store (h.initTurns.map (readCell h.store)) h.initTurns hwf]
    rfl
  · intro a ha hmem
    have h1 : h.store.length ≤ a := (List.mem_range'_1.mp ha).1
    exact absurd (hwf a hmem) (by omega)
  · intro a ha t
    have h1 : h.store.length ≤ a := (List.mem_range'_1.mp ha).1
    apply readAddrs_set_of_ne
    intro b hb
    have := hwf b hb
    omega

/-- Witness for C6 on a one-cell heap whose prefix is the single system
turn. -/
theorem c6_witness :
    HeapWF ⟨[Turn.mk "system" "p"], [0], []⟩
    ∧ (readAddrs (heapThresholdStart ⟨[Turn.mk "system" "p"], [0], []⟩).store
          (heapThresholdStart ⟨[Turn.mk "system" "p"], [0], []⟩).liveTurns
        = readAddrs (heapThresholdStart ⟨[Turn.mk "system" "p"], [0], []⟩).store
            (heapThresholdStart ⟨[Turn.mk "system" "p"], [0], []⟩).initTurns
      ∧ (∀ a ∈ (heapThresholdStart ⟨[Turn.mk "system" "p"], [0], []⟩).liveTurns,
          a ∉ (heapThresholdStart ⟨[Turn.mk "system" "p"], [0], []⟩).initTurns)
      ∧ (∀ a ∈ (heapThresholdStart ⟨[Turn.mk "system" "p"], [0], []⟩).liveTurns, ∀ t : Turn,
          readAddrs (setCell (heapThresholdStart ⟨[Turn.mk "system" "p"], [0], []⟩) a t).store
              (setCell (heapThresholdStart ⟨[Turn.mk "system" "p"], [0], []⟩) a t).initTurns
            = readAddrs (heapThresholdStart ⟨[Turn.mk "system" "p"], [0], []⟩).store
                (heapThresholdStart ⟨[Turn.mk "system" "p"], [0], []⟩).initTurns)) :=
  ⟨by unfold HeapWF; decide, c6_deepcopy_no_aliasing ⟨[Turn.mk "system" "p"], [0], []⟩
    (by unfold HeapWF; decide)⟩

/-- Counterexample for C7's formatting clause as stated: the transcript
block puts the capitalized role and the content on one line separated by
a colon, with the blank line after the content — not role label, blank
line, content. -/
theorem c7_counterexample : ¬ claimC7format := by
  intro h
  exact absurd (h (Turn.mk "user" "hi")) (by decide)

/-- C7 (amended): after the exit command no later envelope is processed
(the run over `pre ++ exit :: post` equals the run over `pre ++ [exit]`),
and a run that terminated through exit dumps every accumulated turn to the
transcript in arrival order, one block per turn consisting of the
capitalized role label, a colon and space, the content, a blank line and
the separator line. -/
theorem c7_exit_stops_and_flushes (jl al : String → Except String PyValue)
    (backend : Nat → BackendResult) :
    (∀ (s : WorkerState) (pre post : List Msg),
      runMsgs jl al backend s (pre ++ exitCmd :: post)
        = runMsgs jl al backend s (pre ++ [exitCmd]))
    ∧ (∀ (s s1 : WorkerState) (msgs : List Msg),
        runMsgs jl al backend s msgs = .ok (s1, true) →
        llamaMainFrom jl al backend s msgs
          = .ok { s1 with transcript := s1.transcript ++ s1.dialogs.map turnBlock }) := by
  constructor
  · intro s pre post
    induction pre generalizing s with
    | nil => rfl
    | cons m pre ih =>
      simp only [List.cons_append, runMsgs]
      cases hs : step jl al backend s m with
      | error e => rfl
      | ok pr =>
        obtain ⟨s', b⟩ := pr
        cases b with
        | true => rfl
        | false => exact ih s'
  · intro s s1 msgs hrun
    unfold llamaMainFrom
    rw [hrun]

/-- Witness for C7: the one-message run consisting of the exit command
alone, from the initial state. -/
theorem c7_witness :
    runMsgs (fun _ => Except.error "x") (fun _ => Except.error "y")
        (fun _ => BackendResult.respond "z") initialState [exitCmd]
      = .ok (⟨[], [], [] ++ [exitBanner], [], 0⟩, true)
    ∧ llamaMainFrom (fun _ => Except.error "x") (fun _ => Except.error "y")
        (fun _ => BackendResult.respond "z") initialState [exitCmd]
      = .ok { (⟨[], [], [] ++ [exitBanner], [], 0⟩ : WorkerState) with
          transcript := (⟨[], [], [] ++ [exitBanner], [], 0⟩ : WorkerState).transcript
            ++ (⟨[], [], [] ++ [exitBanner], [], 0⟩ : WorkerState).dialogs.map turnBlock } :=
  ⟨rfl,
    (c7_exit_stops_and_flushes (fun _ => Except.error "x") (fun _ => Except.error "y")
        (fun _ => BackendResult.respond "z")).2
      initialState ⟨[], [], [] ++ [exitBanner], [], 0⟩ [exitCmd] rfl⟩

/-- Counterexample for C4 as stated: `json.loads("5")` yields the integer
5, on which the membership test `'suggestions' in payload` raises a
`TypeError` caught as an unknown error — not the claimed `SchemaError`
(schema `ValueError`). -/
theorem c4_counterexample : ¬ claimC4 := by
  intro h
  have hc := h (fun _ => Except.ok (PyValue.int 5)) (fun _ => Except.ok (PyValue.int 5))
    "5" (PyValue.int 5) rfl
  simp only [specSchemaOkClaim] at hc
  have hv : validateResponse (fun _ => Except.ok (PyValue.int 5))
      (fun _ => Except.ok (PyValue.int 5)) "5"
      = .error ⟨ExnClass.otherError, "argument of type \x27" ++ "int" ++ "\x27 is not iterable"⟩ :=
    rfl
  rw [hv] at hc
  rcases hc with h1 | h1 <;> simp [missingSuggErr, missingFieldsErr] at h1

/-- C4 (amended): the validator tries the strict parse first (the
permissive parser is never consulted when it succeeds), falls back to the
permissive parse, and fails with `ValueError("Cannot parse response
format: <permissive error>")` when both fail; on a parsed payload it
succeeds exactly when the payload passes the schema conditions
(membership of `suggestions`, subscriptable and iterable member, both
fields on every element); a dict payload without the `suggestions` key
fails with the schema `ValueError` naming it, and a dict payload whose
`suggestions` list of dict elements misses a field fails with the schema
`ValueError` naming the fields — while non-dict-like payloads fail with a
`TypeError`-class unknown error instead. -/
theorem c4_validator (jl al : String → Except String PyValue) (text : String) :
    (∀ p, jl text = .ok p → ∀ al2, validateResponse jl al text = validateResponse jl al2 text)
    ∧ (∀ e1 p, jl text = .error e1 → al text = .ok p →
        validateResponse jl al text
          = (match validateSchema p with | .ok _ => .ok p | .error e => .error e))
    ∧ (∀ e1 e2, jl text = .error e1 → al text = .error e2 →
        validateResponse jl al text
          = .error ⟨ExnClass.valueError, "Cannot parse response format: " ++ e2⟩)
    ∧ (∀ p, parsedPayload jl al text = some p →
        (validateResponse jl al text = .ok p ↔ pySchemaOkB p = true))
    ∧ (∀ p kvs, parsedPayload jl al text = some p → p = .dict kvs →
        (kvs.any fun kv => kv.1 == "suggestions") = false →
        validateResponse jl al text = .error missingSuggErr)
    ∧ (∀ p kvs kv xs, parsedPayload jl al text = some p → p = .dict kvs →
        kvs.find? (fun kv2 => kv2.1 == "suggestions") = some kv → kv.2 = .list xs →
        (∀ x ∈ xs, ∃ kvx, x = PyValue.dict kvx) → xs.all bothFieldsB = false →
        validateResponse jl al text = .error missingFieldsErr) := by
  refine ⟨?_, ?_, ?_, ?_, ?_, ?_⟩
  · intro p hj al2
    simp only [validateResponse, hj]
  · intro e1 p hj ha
    simp only [validateResponse, hj, ha]
  · intro e1 e2 hj ha
    simp only [validateResponse, hj, ha]
  · intro p hp
    rw [validateResponse_parsed jl al text p hp]
    constructor
    · intro hok
      cases hv : validateSchema p with
      | ok u => exact (validateSchema_ok_iff p).mp (by cases u; exact hv)
      | error e => rw [hv] at hok; simp at hok
    · intro hb
      rw [(validateSchema_ok_iff p).mpr hb]
  · intro p kvs hp hpd hnone
    subst hpd
    rw [validateResponse_parsed jl al text _ hp]
    simp [validateSchema, pyContains, hnone]
  · intro p kvs kv xs hp hpd hfind hkv hdicts hbad
    subst hpd
    have hmem := List.mem_of_find?_eq_some hfind
    have hpkv : (kv.1 == "suggestions") = true := by
      have hps := List.find?_some hfind
      simpa using hps
    have hany : (kvs.any fun kv2 => kv2.1 == "suggestions") = true :=
      List.any_eq_true.mpr ⟨kv, hmem, hpkv⟩
    have hcheck := checkSuggestions_dicts_fail xs hdicts hbad
    rw [validateResponse_parsed jl al text _ hp]
    simp [validateSchema, pyContains, pySubscript, hany, hfind, hkv, pyIter, hcheck]

/-- Witness for C4: both parsers failing on a concrete text produces the
combined parse error carrying the permissive parser's message. -/
theorem c4_witness :
    ((fun _ => (Except.error "Expecting value" : Except String PyValue)) "t"
      = Except.error "Expecting value")
    ∧ ((fun _ => (Except.error "invalid syntax" : Except String PyValue)) "t"
      = Except.error "invalid syntax")
    ∧ validateResponse (fun _ => Except.error "Expecting value")
        (fun _ => Except.error "invalid syntax") "t"
      = .error ⟨ExnClass.valueError, "Cannot parse response format: " ++ "invalid syntax"⟩ :=
  ⟨rfl, rfl,
    (c4_validator (fun _ => Except.error "Expecting value")
        (fun _ => Except.error "invalid syntax") "t").2.2.1
      "Expecting value" "invalid syntax" rfl rfl⟩
